import Mathlib

/-!
Verification of the warelay inbound-relay core (src/index.ts) against its
natural-language specification.

The TypeScript source is shallowly embedded: pure logic becomes Lean
functions, JavaScript effects (file writes, process spawning, callbacks,
network requests) become explicit outcome parameters of type Except, and
machine numbers (millisecond timestamps, exit codes) become Int.  String
operations are modelled over List Char; JavaScript truthiness of strings
(empty string is falsy) and of optional values (undefined and null are
falsy) is modelled explicitly at each use site.
-/

/-- ASCII approximation of the JavaScript whitespace class used by
String.prototype.trim / trimStart and by the regex class \s. -/
def isJsWs (c : Char) : Bool :=
  c = ' ' || c = '\t' || c = '\n' || c = '\r' || c = '\x0b' || c = '\x0c'

/-- List-level body of JavaScript String.prototype.trim. -/
def jsTrimList (l : List Char) : List Char :=
  ((l.dropWhile isJsWs).reverse.dropWhile isJsWs).reverse

/-- JavaScript String.prototype.trim. -/
def jsTrim (s : String) : String := ⟨jsTrimList s.toList⟩

/-- JavaScript String.prototype.trimStart. -/
def jsTrimStart (s : String) : String := ⟨s.toList.dropWhile isJsWs⟩

/-- Word characters of the regex class \w, ASCII: letters, digits, underscore. -/
def isWordChar (c : Char) : Bool :=
  c.isAlpha || c.isDigit || c = '_'

/-- Attempt to match the placeholder regex fragment \s*(\w+)\s* followed by
the two closing braces, given the characters after the two opening braces.
Returns the captured key and the characters after the match. -/
def placeholderTail (rest : List Char) : Option (List Char × List Char) :=
  let afterWs := rest.dropWhile isJsWs
  let key := afterWs.takeWhile isWordChar
  let afterKey := afterWs.dropWhile isWordChar
  if key = [] then none
  else
    match afterKey.dropWhile isJsWs with
    | c3 :: c4 :: rest2 =>
      if c3 = '\x7d' ∧ c4 = '\x7d' then some (key, rest2) else none
    | _ => none

/-- Attempt to match one occurrence of the placeholder regex
(two opening braces, \s*, \w+, \s*, two closing braces) at the head of the
character list; regex-equivalent because the three inner character classes
are pairwise disjoint, so the greedy left-to-right scan never backtracks. -/
def tryPlaceholder (l : List Char) : Option (List Char × List Char) :=
  match l with
  | c1 :: c2 :: rest =>
    if c1 = '\x7b' ∧ c2 = '\x7b' then placeholderTail rest else none
  | _ => none

/-- Single left-to-right pass of String.prototype.replace with the global
placeholder regex (src/index.ts line 537): at each position, either the
placeholder matches and its replacement (never rescanned) is emitted, or
one literal character is emitted.  Structural recursion on a fuel that is
initialised to the length of the input, which each step strictly consumes. -/
def templateGo (find : List Char → List Char) : Nat → List Char → List Char
  | 0, _ => []
  | Nat.succ fuel, l =>
    match tryPlaceholder l with
    | some (key, rest) => find key ++ templateGo find fuel rest
    | none =>
      match l with
      | [] => []
      | c :: cs => c :: templateGo find fuel cs

/-- applyTemplate (src/index.ts lines 535-541) generalised over the dynamic
record lookup (ctx as Record of string to unknown)[key]: unknown or
null-valued keys render as the empty string. -/
def renderTemplate (lookup : String → Option String) (s : String) : String :=
  ⟨templateGo (fun k => ((lookup ⟨k⟩).getD "").toList) s.toList.length s.toList⟩

/-- MsgContext (src/index.ts lines 524-529): projection of the inbound
message used for templating.  All fields are optional strings. -/
structure MsgContext where
  Body : Option String := none
  From : Option String := none
  To : Option String := none
  MessageSid : Option String := none
deriving DecidableEq

/-- TemplateContext (src/index.ts lines 543-547): MsgContext plus the
session-derived fields. -/
structure TemplateContext where
  Body : Option String := none
  From : Option String := none
  To : Option String := none
  MessageSid : Option String := none
  BodyStripped : Option String := none
  SessionId : Option String := none
  IsNewSession : Option String := none
deriving DecidableEq

/-- The dynamic property lookup (ctx as Record of string to unknown)[key]
performed by applyTemplate on a TemplateContext value. -/
def ctxGet (c : TemplateContext) (k : String) : Option String :=
  if k = "Body" then c.Body
  else if k = "From" then c.From
  else if k = "To" then c.To
  else if k = "MessageSid" then c.MessageSid
  else if k = "BodyStripped" then c.BodyStripped
  else if k = "SessionId" then c.SessionId
  else if k = "IsNewSession" then c.IsNewSession
  else none

/-- applyTemplate (src/index.ts lines 535-541) at its source type. -/
def applyTemplate (s : String) (ctx : TemplateContext) : String :=
  renderTemplate (ctxGet ctx) s

/-- SessionEntry (src/index.ts line 549). -/
structure SessionEntry where
  sessionId : String
  updatedAt : Int
deriving DecidableEq

/-- The session store mapping loaded from disk, as an association list. -/
abbrev SessionStore := List (String × SessionEntry)

/-- Property lookup store[sessionKey] on the loaded mapping. -/
def storeFind (s : SessionStore) (k : String) : Option SessionEntry :=
  match s with
  | [] => none
  | (k2, v) :: rest => if k2 = k then some v else storeFind rest k

/-- SessionConfig (src/index.ts lines 500-508).  bodyPre mirrors the source
field bodyPrefix elsewhere; here sessionArgBeforeBody keeps its name. -/
structure SessionConfig where
  scope : Option String := none
  resetTriggers : Option (List String) := none
  idleMinutes : Option Int := none
  store : Option String := none
  sessionArgNew : Option (List String) := none
  sessionArgResume : Option (List String) := none
  sessionArgBeforeBody : Option Bool := none
deriving DecidableEq

/-- The reply block of the config (cfg.inbound.reply, src/index.ts).
bodyPre models the source field bodyPrefix. -/
structure ReplyConfig where
  mode : Option String := none
  text : Option String := none
  command : Option (List String) := none
  template : Option String := none
  bodyPre : Option String := none
  timeoutSeconds : Option Int := none
  session : Option SessionConfig := none
deriving DecidableEq

/-- cfg.inbound: allow-list plus reply spec. -/
structure InboundConfig where
  allowFrom : Option (List String) := none
  reply : Option ReplyConfig := none
deriving DecidableEq

/-- WarelayConfig: the part of the config file getReplyFromConfig reads. -/
structure WarelayConfig where
  inbound : Option InboundConfig := none
deriving DecidableEq

/-- deriveSessionKey (src/index.ts lines 587-591).  normalize stands for
normalizeE164, whose implementation lives outside src/; the empty string
and a missing From are both falsy, giving the literal key "unknown". -/
def deriveSessionKey (scope : String) (ctx : MsgContext)
    (normalize : String → String) : String :=
  if scope = "global" then "global"
  else
    let from0 :=
      match ctx.From with
      | some f => if f ≠ "" then normalize f else ""
      | none => ""
    if from0 ≠ "" then from0 else "unknown"

/-- The reset-trigger scan (src/index.ts lines 629-642) over the trimmed
body: empty triggers are skipped; an exact match yields an empty stripped
body; a match of trigger-plus-space yields the trimStart of the remainder
after the trigger; the first match wins.  Returns the stripped body when a
trigger matched. -/
def scanTriggers (triggers : List String) (trimmedBody : String) : Option String :=
  match triggers with
  | [] => none
  | t :: rest =>
    if t = "" then scanTriggers rest trimmedBody
    else if trimmedBody = t then some ""
    else if (t.toList ++ [' ']).isPrefixOf trimmedBody.toList then
      some (jsTrimStart ⟨trimmedBody.toList.drop t.length⟩)
    else scanTriggers rest trimmedBody

/-- Effective command timeout in seconds (src/index.ts line 602):
Math.max(reply?.timeoutSeconds ?? 600, 1). -/
def effTimeoutSeconds (v : Option Int) : Int := max (v.getD 600) 1

/-- Effective session idle window in minutes (src/index.ts lines 616-619):
Math.max(sessionCfg?.idleMinutes ?? DEFAULT_IDLE_MINUTES, 1). -/
def effIdleMinutes (v : Option Int) : Int := max (v.getD 60) 1

/-- Result of one session resolution (src/index.ts lines 627-658): the
sessionId and isNewSession values plus the entry written back to the store.
now is the Date.now() of the freshness check (line 648) and nowSave the
Date.now() of the write (line 657); freshId stands for the
crypto.randomUUID() value minted when no fresh entry is reused. -/
structure SessionOutcome where
  sessionId : String
  isNewSession : Bool
  bodyStripped : Option String
  writeKey : String
  writeEntry : SessionEntry
deriving DecidableEq

/-- The session block of getReplyFromConfig (src/index.ts lines 627-658),
with the store already loaded (loadSessionStore recovers silently, so it
never throws) and the save effect handled by the caller. -/
def resolveSession (sessionScope : String) (resetTriggers : List String)
    (idleMinutes : Int) (ctx : MsgContext) (store : SessionStore)
    (now nowSave : Int) (freshId : String)
    (normalize : String → String) : SessionOutcome :=
  let trimmedBody := jsTrim (ctx.Body.getD "")
  let scanned := scanTriggers resetTriggers trimmedBody
  let sessionKey := deriveSessionKey sessionScope ctx normalize
  let entry := storeFind store sessionKey
  let idleMs := idleMinutes * 60000
  let minted :=
    match scanned, entry with
    | none, some e =>
      if now - e.updatedAt ≤ idleMs then (e.sessionId, false) else (freshId, true)
    | none, none => (freshId, true)
    | some _, _ => (freshId, true)
  { sessionId := minted.1
    isNewSession := minted.2
    bodyStripped := scanned
    writeKey := sessionKey
    writeEntry := { sessionId := minted.1, updatedAt := nowSave } }

/-- SpawnResult (src/index.ts lines 314-320). -/
structure SpawnResult where
  stdout : String := ""
  stderr : String := ""
  code : Option Int := none
  signal : Option String := none
  killed : Bool := false
deriving DecidableEq

/-- The handling of a completed command (src/index.ts lines 739-759):
a non-zero exit code (null coerced to 0) yields no reply; killed with a
falsy signal yields no reply; otherwise the trimmed stdout, with an empty
trim yielding no reply. -/
def commandReplyOf (r : SpawnResult) : Option String :=
  if r.code.getD 0 ≠ 0 then none
  else if r.killed ∧ r.signal.getD "" = "" then none
  else
    let trimmed := jsTrim r.stdout
    if trimmed = "" then none else some trimmed

/-- The SpawnResult produced by runCommandWithTimeout when the timeout
timer fires (src/index.ts lines 334-336, 350-355) together with Node
child-process semantics: the child is killed with SIGKILL, the close event
reports a null exit code and the SIGKILL signal, and child.killed is true;
the captured output is whatever the child wrote before being killed. -/
def timeoutKilledResult (capturedStdout capturedStderr : String) : SpawnResult :=
  { stdout := capturedStdout, stderr := capturedStderr,
    code := none, signal := some "SIGKILL", killed := true }

/-- A command that only sleeps past the timeout: killed with no output. -/
def sleepTimeoutResult : SpawnResult := timeoutKilledResult "" ""

/-- Outcomes of the JavaScript effects getReplyFromConfig performs: the
saveSessionStore write (line 658), the opts.onReplyStart callback (lines
605-609), and the commandRunner invocation (line 735).  An error value
models a thrown exception. -/
structure ResolveEffects where
  saveStore : Except String Unit := .ok ()
  onReplyStart : Except String Unit := .ok ()
  runner : Except String SpawnResult := .ok {}

/-- Observable outcome of one resolution: the returned reply, the entry
written to the session store (none when sessions are not configured), the
at-most-once onReplyStart invocation flag, and the argv and timeout passed
to the command runner when it was invoked. -/
structure ResolveLog where
  reply : Option String := none
  storeWrite : Option (String × SessionEntry) := none
  started : Bool := false
  ranCommand : Option (List String × Int) := none
deriving DecidableEq

/-- The allow-list rejection test (src/index.ts lines 682-691):
Array.isArray plus non-empty length, then absence of the sender. -/
def allowDenied (allowFrom : Option (List String)) (from0 : String) : Bool :=
  match allowFrom with
  | some l => decide (0 < l.length) && !(decide (from0 ∈ l))
  | none => false

/-- The regex replace (ctx.From ?? "").replace of the leading
whatsapp: scheme (src/index.ts line 684). -/
def stripWhatsApp (s : String) : String :=
  if "whatsapp:".toList.isPrefixOf s.toList then ⟨s.toList.drop 9⟩ else s

/-- The argv construction of command mode (src/index.ts lines 705-731):
template every command part, splice the rendered prompt template in as the
second element when present, then splice the rendered session arguments
before the last element or at the end per sessionArgBeforeBody. -/
def buildCommandArgv (r : ReplyConfig) (templatingCtx : TemplateContext)
    (isNewSession : Bool) : List String :=
  let argv0 := (r.command.getD []).map fun part => applyTemplate part templatingCtx
  let templatePre :=
    match r.template with
    | some t => if t ≠ "" then applyTemplate t templatingCtx else ""
    | none => ""
  let argv1 :=
    if templatePre ≠ "" ∧ 0 < argv0.length then
      argv0.take 1 ++ [templatePre] ++ argv0.drop 1
    else argv0
  match r.session with
  | some s =>
    let sessionArgList :=
      (if isNewSession then
          s.sessionArgNew.getD ["--session-id", "\x7b\x7bSessionId\x7d\x7d"]
        else
          s.sessionArgResume.getD ["--resume", "\x7b\x7bSessionId\x7d\x7d"]).map
        fun part => applyTemplate part templatingCtx
    if 0 < sessionArgList.length then
      let insertBeforeBody := s.sessionArgBeforeBody.getD true
      let insertAt :=
        if insertBeforeBody ∧ 1 < argv1.length then argv1.length - 1
        else argv1.length
      argv1.take insertAt ++ sessionArgList ++ argv1.drop insertAt
    else argv1
  | none => argv1

/-- The mode dispatch of getReplyFromConfig after the allow-list check
(src/index.ts lines 692-783): no reply spec yields none; text mode invokes
onReplyStart (whose exception is not caught) and renders the text; command
mode invokes onReplyStart, builds the argv, and runs the command — a
thrown run is caught (line 760) and converted to none, and a completed run
goes through the result handling; any other shape yields none. -/
def runReplyModes (reply : Option ReplyConfig) (templatingCtx : TemplateContext)
    (isNewSession : Bool) (timeoutMs : Int) (eff : ResolveEffects)
    (storeWrite : Option (String × SessionEntry)) : Except String ResolveLog :=
  match reply with
  | none => .ok { reply := none, storeWrite := storeWrite }
  | some r =>
    if r.mode = some "text" ∧ r.text.getD "" ≠ "" then
      match eff.onReplyStart with
      | .error e => .error e
      | .ok _ =>
        .ok { reply := some (applyTemplate (r.text.getD "") templatingCtx),
              storeWrite := storeWrite, started := true }
    else if r.mode = some "command" ∧ 0 < (r.command.getD []).length then
      match eff.onReplyStart with
      | .error e => .error e
      | .ok _ =>
        let argv2 := buildCommandArgv r templatingCtx isNewSession
        match eff.runner with
        | .error _ =>
          .ok { reply := none, storeWrite := storeWrite, started := true,
                ranCommand := some (argv2, timeoutMs) }
        | .ok res =>
          .ok { reply := commandReplyOf res, storeWrite := storeWrite,
                started := true, ranCommand := some (argv2, timeoutMs) }
    else
      .ok { reply := none, storeWrite := storeWrite }

/-- The template context after the session block and bodyPrefix handling
(src/index.ts lines 661-679): BodyStripped falls back to the raw body, the
rendered bodyPrefix (empty is falsy) is prepended, and the prefixed body
becomes both Body and BodyStripped of the templating context. -/
def buildTemplatingCtx (reply : Option ReplyConfig) (ctx : MsgContext)
    (sessionOut : Option SessionOutcome) : TemplateContext :=
  let isNewSession := (sessionOut.map (·.isNewSession)).getD false
  let sessionCtx : TemplateContext :=
    { Body := ctx.Body, From := ctx.From, To := ctx.To,
      MessageSid := ctx.MessageSid
      BodyStripped :=
        match sessionOut with
        | some o => match o.bodyStripped with
          | some s => some s
          | none => ctx.Body
        | none => ctx.Body
      SessionId := sessionOut.map (·.sessionId)
      IsNewSession := some (if isNewSession then "true" else "false") }
  let bodyPre :=
    match reply.bind (·.bodyPre) with
    | some p => if p ≠ "" then applyTemplate p sessionCtx else ""
    | none => ""
  let prefixedBody : Option String :=
    if bodyPre ≠ "" then
      some (bodyPre ++ ((sessionCtx.BodyStripped).getD ((sessionCtx.Body).getD "")))
    else
      match sessionCtx.BodyStripped with
      | some s => some s
      | none => sessionCtx.Body
  { sessionCtx with Body := prefixedBody, BodyStripped := prefixedBody }

/-- cfg.inbound?.reply (src/index.ts line 601). -/
def replyOf (cfg : WarelayConfig) : Option ReplyConfig :=
  cfg.inbound.bind (·.reply)

/-- timeoutMs (src/index.ts lines 602-603). -/
def timeoutMsOf (cfg : WarelayConfig) : Int :=
  effTimeoutSeconds ((replyOf cfg).bind (·.timeoutSeconds)) * 1000

def sessionCfgOf (cfg : WarelayConfig) : Option SessionConfig :=
  (replyOf cfg).bind (·.session)

/-- resetTriggers (src/index.ts lines 613-615): the configured list when
its length is truthy, otherwise the default trigger. -/
def resetTriggersOf (cfg : WarelayConfig) : List String :=
  match (sessionCfgOf cfg).bind (·.resetTriggers) with
  | some l => if l.length ≠ 0 then l else ["/new"]
  | none => ["/new"]

def idleMinutesOf (cfg : WarelayConfig) : Int :=
  effIdleMinutes ((sessionCfgOf cfg).bind (·.idleMinutes))

/-- sessionScope (src/index.ts line 620). -/
def sessionScopeOf (cfg : WarelayConfig) : String :=
  ((sessionCfgOf cfg).bind (·.scope)).getD "per-sender"

/-- The session block outcome (src/index.ts lines 627-658), present
exactly when a session config is. -/
def sessionOutOf (cfg : WarelayConfig) (ctx : MsgContext)
    (store : SessionStore) (now nowSave : Int) (freshId : String)
    (normalize : String → String) : Option SessionOutcome :=
  (sessionCfgOf cfg).map fun _ =>
    resolveSession (sessionScopeOf cfg) (resetTriggersOf cfg)
      (idleMinutesOf cfg) ctx store now nowSave freshId normalize

/-- The entry written by line 657, keyed as stored. -/
def storeWriteOf (cfg : WarelayConfig) (ctx : MsgContext)
    (store : SessionStore) (now nowSave : Int) (freshId : String)
    (normalize : String → String) : Option (String × SessionEntry) :=
  (sessionOutOf cfg ctx store now nowSave freshId normalize).map fun o =>
    (o.writeKey, o.writeEntry)

def isNewOf (cfg : WarelayConfig) (ctx : MsgContext) (store : SessionStore)
    (now nowSave : Int) (freshId : String)
    (normalize : String → String) : Bool :=
  ((sessionOutOf cfg ctx store now nowSave freshId normalize).map
    (·.isNewSession)).getD false

/-- getReplyFromConfig (src/index.ts lines 593-783), embedded over explicit
effect outcomes.  store is the mapping loadSessionStore returned (that
function recovers from a corrupt or missing file internally and never
throws); now and nowSave are the two Date.now() readings of the session
block; freshId stands for crypto.randomUUID(); normalize stands for
normalizeE164.  A .error result models an exception propagating to the
caller.  The session block (lines 627-659) runs, and its store write
happens, before the allow-list check (lines 682-691); the thrown save is
not caught. -/
def getReplyFromConfig (cfg : WarelayConfig) (ctx : MsgContext)
    (eff : ResolveEffects) (store : SessionStore) (now nowSave : Int)
    (freshId : String) (normalize : String → String) :
    Except String ResolveLog :=
  match (match sessionCfgOf cfg with
         | some _ => eff.saveStore
         | none => .ok ()) with
  | .error e => .error e
  | .ok _ =>
    if allowDenied (cfg.inbound.bind (·.allowFrom))
        (stripWhatsApp (ctx.From.getD "")) then
      .ok { reply := none,
            storeWrite := storeWriteOf cfg ctx store now nowSave freshId normalize }
    else
      runReplyModes (replyOf cfg)
        (buildTemplatingCtx (replyOf cfg) ctx
          (sessionOutOf cfg ctx store now nowSave freshId normalize))
        (isNewOf cfg ctx store now nowSave freshId normalize)
        (timeoutMsOf cfg) eff
        (storeWriteOf cfg ctx store now nowSave freshId normalize)

/-- A polled message as monitorTwilio uses it (src/index.ts lines
1586-1602): Twilio sid, direction, and the dateCreated timestamp in
milliseconds (absent timestamps sort as 0). -/
structure PollMsg where
  sid : String
  direction : String
  dateCreated : Option Int := none
deriving DecidableEq

/-- The sort key a.dateCreated?.getTime() ?? 0 (src/index.ts lines
1589-1592). -/
def msgKey (m : PollMsg) : Int := m.dateCreated.getD 0

/-- Comparator ordering of the batch sort: non-decreasing dateCreated. -/
def msgLe (a b : PollMsg) : Prop := msgKey a ≤ msgKey b

instance : DecidableRel msgLe := fun a b =>
  inferInstanceAs (Decidable (msgKey a ≤ msgKey b))

instance : IsTotal PollMsg msgLe := ⟨fun a b => Int.le_total (msgKey a) (msgKey b)⟩

instance : IsTrans PollMsg msgLe := ⟨fun _ _ _ h1 h2 => le_trans h1 h2⟩

/-- updateSince (src/index.ts lines 1564-1569): advance the watermark when
the message carries a later creation time. -/
def updateSince (since : Int) (d : Option Int) : Int :=
  match d with
  | none => since
  | some t => if since < t then t else since

/-- The per-batch loop body of monitorTwilio (src/index.ts lines
1595-1603): skip messages whose sid is in the seen set; otherwise record
the sid, advance the watermark, and dispatch.  Returns the new watermark,
the new seen set, and the dispatched messages in dispatch order. -/
def processBatch (seen : List String) (since : Int) :
    List PollMsg → Int × List String × List PollMsg
  | [] => (since, seen, [])
  | m :: rest =>
    if m.sid ∈ seen then processBatch seen since rest
    else
      let r := processBatch (m.sid :: seen) (updateSince since m.dateCreated) rest
      (r.1, r.2.1, m :: r.2.2)

/-- One poll iteration of monitorTwilio (src/index.ts lines 1581-1603):
filter the fetch result to inbound messages, sort ascending by creation
time (a stable sort, as Array.prototype.sort is), then run the dedup and
dispatch loop. -/
def monitorTwilioStep (since : Int) (seen : List String)
    (msgs : List PollMsg) : Int × List String × List PollMsg :=
  processBatch seen since
    (List.insertionSort msgLe (msgs.filter fun m => decide (m.direction = "inbound")))

/-- The webhook object of a fetched Channels Sender: callback_url and
fallback_url (src/index.ts lines 1375-1376). -/
structure SenderWebhookInfo where
  callbackUrl : Option String := none
  fallbackUrl : Option String := none
deriving DecidableEq

/-- The read-back value fetched?.webhook?.callback_url ||
fetched?.webhook?.fallback_url followed by the truthiness test
if (storedUrl) (src/index.ts lines 1375-1377): returns the stored URL when
it is truthy, none otherwise.  The intended URL is not compared. -/
def storedUrlOf (w : Option SenderWebhookInfo) : Option String :=
  let cb := (w.bind (·.callbackUrl)).getD ""
  let fb := (w.bind (·.fallbackUrl)).getD ""
  let s := if cb ≠ "" then cb else fb
  if s ≠ "" then some s else none

/-- Outcomes of the remote Twilio interactions updateWebhook performs; an
error value models a thrown request.  findIncomingNumberSid and
setMessagingServiceWebhook catch internally and never throw, so they are
plain values. -/
structure WebhookEnv where
  jsonWrite : Except String Unit := .ok ()
  jsonFetch : Except String (Option SenderWebhookInfo) := .ok none
  formWrite : Except String Unit := .ok ()
  formFetch : Except String (Option SenderWebhookInfo) := .ok none
  helperAvailable : Bool := true
  helperUpdate : Except String Unit := .ok ()
  helperFetch : Except String (Option SenderWebhookInfo) := .ok none
  phoneSidLookup : Option String := none
  phoneUpdate : Except String Unit := .ok ()
  serviceUpdate : Bool := false

/-- How updateWebhook terminated: which strategy reported success (with
the URL it logged) or the fatal runtime.exit(1) path. -/
inductive WebhookOutcome where
  | viaJson (stored : String)
  | viaForm (stored : String)
  | viaHelper (reported : String)
  | viaPhone
  | viaService
  | fatal
deriving DecidableEq

/-- updateWebhook (src/index.ts lines 1347-1487): the fixed, ordered
fallback chain.  Strategy 1 (raw JSON write, lines 1358-1391) and strategy
1b (form write, lines 1393-1422) each write then fetch and succeed when a
truthy stored URL comes back; strategy 2 (SDK helper, lines 1424-1449)
updates, fetches, and succeeds unconditionally, logging the stored URL or
the intended one; strategy 3 (incoming phone number, lines 1451-1465)
succeeds with no read-back when a phone SID is found; strategy 4
(messaging service, lines 1467-1473) is a boolean; otherwise the fatal
exit (lines 1475-1486). -/
def updateWebhook (env : WebhookEnv) (url : String) : WebhookOutcome :=
  let s1 : Option WebhookOutcome :=
    match env.jsonWrite with
    | .error _ => none
    | .ok _ =>
      match env.jsonFetch with
      | .error _ => none
      | .ok w =>
        match storedUrlOf w with
        | some u => some (.viaJson u)
        | none => none
  match s1 with
  | some o => o
  | none =>
    let s1b : Option WebhookOutcome :=
      match env.formWrite with
      | .error _ => none
      | .ok _ =>
        match env.formFetch with
        | .error _ => none
        | .ok w =>
          match storedUrlOf w with
          | some u => some (.viaForm u)
          | none => none
    match s1b with
    | some o => o
    | none =>
      let s2 : Option WebhookOutcome :=
        if env.helperAvailable then
          match env.helperUpdate with
          | .error _ => none
          | .ok _ =>
            match env.helperFetch with
            | .error _ => none
            | .ok w => some (.viaHelper ((storedUrlOf w).getD url))
        else none
      match s2 with
      | some o => o
      | none =>
        let s3 : Option WebhookOutcome :=
          match env.phoneSidLookup with
          | some _ =>
            match env.phoneUpdate with
            | .error _ => none
            | .ok _ => some .viaPhone
          | none => none
        match s3 with
        | some o => o
        | none => if env.serviceUpdate then .viaService else .fatal

/-- The dispatch discipline of the staged poll ingestor (src/index.ts line
1602): each deduplicated message's reply generation is started with void
(fire-and-forget) inside the synchronous batch loop — nothing awaits it
and no queue exists anywhere in the staged source — so every reply task of
a batch begins at the batch's dispatch tick, regardless of whether its
predecessors have finished.  Given the dispatch tick and each task's
duration (its command run time, in dispatch order), returns the execution
intervals.  The webhook handler (lines 986-1028) likewise awaits
resolution per request with no cross-request queue; the FIFO queue named
by the repository changelog (process/command-queue.ts) exists only in the
refactored modules outside src/. -/
def pollDispatchSchedule (t0 : Int) : List Int → List (Int × Int)
  | [] => []
  | d :: rest => (t0, t0 + d) :: pollDispatchSchedule t0 rest

instance {ε α : Type} [DecidableEq ε] [DecidableEq α] : DecidableEq (Except ε α)
  | .error a, .error b =>
    if h : a = b then .isTrue (by rw [h])
    else .isFalse fun he => h (Except.error.inj he)
  | .error _, .ok _ => .isFalse fun he => Except.noConfusion he
  | .ok _, .error _ => .isFalse fun he => Except.noConfusion he
  | .ok a, .ok b =>
    if h : a = b then .isTrue (by rw [h])
    else .isFalse fun he => h (Except.ok.inj he)

/-- Configs and contexts used by concrete instances below. -/
def textCfg (allow : Option (List String)) : WarelayConfig :=
  { inbound := some
      { allowFrom := allow,
        reply := some
          { mode := some "text", text := some "echo \x7b\x7bBody\x7d\x7d",
            session := some {} } } }

def cmdCfg : WarelayConfig :=
  { inbound := some
      { reply := some { mode := some "command", command := some ["mycmd"] } } }

/-! Helper lemmas shared by the claim theorems. -/

theorem templateGo_no_brace (find : List Char → List Char) :
    ∀ (l : List Char) (fuel : Nat), l.length ≤ fuel →
      (∀ c ∈ l, c ≠ '\x7b') → templateGo find fuel l = l := by
  intro l
  induction l with
  | nil =>
    intro fuel _ _
    cases fuel <;> simp [templateGo, tryPlaceholder]
  | cons c cs ih =>
    intro fuel hlen hnb
    cases fuel with
    | zero => simp at hlen
    | succ f =>
      have hc : c ≠ '\x7b' := hnb c (by simp)
      have htail : ∀ x ∈ cs, x ≠ '\x7b' := fun x hx => hnb x (by simp [hx])
      have hlen2 : cs.length ≤ f := by simpa using hlen
      have hnone : tryPlaceholder (c :: cs) = none := by
        cases cs with
        | nil => simp [tryPlaceholder]
        | cons c2 cs2 => simp [tryPlaceholder, hc]
      simp [templateGo, hnone, ih f hlen2 htail]

theorem processBatch_sublist :
    ∀ (msgs : List PollMsg) (seen : List String) (since : Int),
      List.Sublist (processBatch seen since msgs).2.2 msgs := by
  intro msgs
  induction msgs with
  | nil => intro seen since; simp [processBatch]
  | cons m rest ih =>
    intro seen since
    by_cases h : m.sid ∈ seen
    · simpa [processBatch, h] using (ih seen since).cons m
    · simpa [processBatch, h] using
        (ih (m.sid :: seen) (updateSince since m.dateCreated)).cons₂ m

theorem processBatch_not_seen :
    ∀ (msgs : List PollMsg) (seen : List String) (since : Int) (m : PollMsg),
      m ∈ (processBatch seen since msgs).2.2 → m.sid ∉ seen := by
  intro msgs
  induction msgs with
  | nil => intro seen since m hm; simp [processBatch] at hm
  | cons m0 rest ih =>
    intro seen since m hm
    by_cases h : m0.sid ∈ seen
    · exact ih seen since m (by simpa [processBatch, h] using hm)
    · simp [processBatch, h] at hm
      rcases hm with hm | hm
      · subst hm; exact h
      · have := ih (m0.sid :: seen) (updateSince since m0.dateCreated) m hm
        intro hmem
        exact this (by simp [hmem])

theorem processBatch_seen_mono :
    ∀ (msgs : List PollMsg) (seen : List String) (since : Int) (s : String),
      s ∈ seen → s ∈ (processBatch seen since msgs).2.1 := by
  intro msgs
  induction msgs with
  | nil => intro seen since s hs; simpa [processBatch] using hs
  | cons m0 rest ih =>
    intro seen since s hs
    by_cases h : m0.sid ∈ seen
    · simpa [processBatch, h] using ih seen since s hs
    · simpa [processBatch, h] using
        ih (m0.sid :: seen) (updateSince since m0.dateCreated) s (by simp [hs])

theorem processBatch_dispatched_seen :
    ∀ (msgs : List PollMsg) (seen : List String) (since : Int) (m : PollMsg),
      m ∈ (processBatch seen since msgs).2.2 →
      m.sid ∈ (processBatch seen since msgs).2.1 := by
  intro msgs
  induction msgs with
  | nil => intro seen since m hm; simp [processBatch] at hm
  | cons m0 rest ih =>
    intro seen since m hm
    by_cases h : m0.sid ∈ seen
    · simp only [processBatch, if_pos h] at hm ⊢
      exact ih seen since m hm
    · simp only [processBatch, if_neg h, List.mem_cons] at hm ⊢
      rcases hm with hm | hm
      · subst hm
        exact processBatch_seen_mono rest (m.sid :: seen)
          (updateSince since m.dateCreated) m.sid (by simp)
      · exact ih (m0.sid :: seen) (updateSince since m0.dateCreated) m hm

theorem pollDispatchSchedule_start :
    ∀ (ds : List Int) (t0 : Int) (i : Nat), i < ds.length →
      ((pollDispatchSchedule t0 ds).getD i (0, 0)).1 = t0 := by
  intro ds
  induction ds with
  | nil => intro t0 i hi; simp at hi
  | cons d rest ih =>
    intro t0 i hi
    cases i with
    | zero => simp [pollDispatchSchedule]
    | succ k =>
      have hk : k < rest.length := by simpa using hi
      simpa [pollDispatchSchedule] using ih t0 k hk

theorem pollDispatchSchedule_end :
    ∀ (ds : List Int) (t0 : Int) (i : Nat), i < ds.length →
      ((pollDispatchSchedule t0 ds).getD i (0, 0)).2 = t0 + ds.getD i 0 := by
  intro ds
  induction ds with
  | nil => intro t0 i hi; simp at hi
  | cons d rest ih =>
    intro t0 i hi
    cases i with
    | zero => simp [pollDispatchSchedule]
    | succ k =>
      have hk : k < rest.length := by simpa using hi
      simpa [pollDispatchSchedule] using ih t0 k hk

theorem runReplyModes_timeout :
    ∀ (reply : Option ReplyConfig) (tctx : TemplateContext) (isNew : Bool)
      (tms : Int) (eff : ResolveEffects) (sw : Option (String × SessionEntry))
      (log : ResolveLog) (argv : List String) (t2 : Int),
      runReplyModes reply tctx isNew tms eff sw = .ok log →
      log.ranCommand = some (argv, t2) → t2 = tms := by
  intro reply tctx isNew tms eff sw log argv t2 hok hran
  cases reply with
  | none => simp [runReplyModes] at hok; subst hok; simp_all
  | some r =>
    by_cases h1 : r.mode = some "text" ∧ r.text.getD "" ≠ ""
    · cases heq : eff.onReplyStart with
      | error e => simp [runReplyModes, h1, heq] at hok
      | ok u => simp [runReplyModes, h1, heq] at hok; subst hok; simp_all
    · by_cases h2 : r.mode = some "command" ∧ 0 < (r.command.getD []).length
      · cases heq : eff.onReplyStart with
        | error e => simp [runReplyModes, h1, h2, heq] at hok
        | ok u =>
          cases hrun : eff.runner with
          | error e =>
            simp [runReplyModes, h1, h2, heq, hrun] at hok
            subst hok
            simp_all
          | ok res =>
            simp [runReplyModes, h1, h2, heq, hrun] at hok
            subst hok
            simp_all
      · simp [runReplyModes, h1, h2] at hok; subst hok; simp_all

/-! The claim theorems. -/

/-- Claim C2 (session freshness and reuse): a stored entry is treated as
fresh only when now minus updatedAt is at most idleMinutes * 60000; with no
reset trigger matched, a fresh entry's sessionId is reused verbatim and
isNewSession stays false; a stale entry, an absent entry, or a matched
reset trigger instead yields the freshly minted id with isNewSession
forced to true — so an entry older than the idle window is never reused. -/
theorem c2_session_freshness :
    (∀ (scope : String) (triggers : List String) (idleMinutes now nowSave : Int)
        (ctx : MsgContext) (store : SessionStore) (freshId : String)
        (normalize : String → String) (e : SessionEntry),
      scanTriggers triggers (jsTrim (ctx.Body.getD "")) = none →
      storeFind store (deriveSessionKey scope ctx normalize) = some e →
      now - e.updatedAt ≤ idleMinutes * 60000 →
      (resolveSession scope triggers idleMinutes ctx store now nowSave freshId
          normalize).sessionId = e.sessionId ∧
        (resolveSession scope triggers idleMinutes ctx store now nowSave freshId
          normalize).isNewSession = false)
  ∧ (∀ (scope : String) (triggers : List String) (idleMinutes now nowSave : Int)
        (ctx : MsgContext) (store : SessionStore) (freshId : String)
        (normalize : String → String) (e : SessionEntry),
      scanTriggers triggers (jsTrim (ctx.Body.getD "")) = none →
      storeFind store (deriveSessionKey scope ctx normalize) = some e →
      idleMinutes * 60000 < now - e.updatedAt →
      (resolveSession scope triggers idleMinutes ctx store now nowSave freshId
          normalize).sessionId = freshId ∧
        (resolveSession scope triggers idleMinutes ctx store now nowSave freshId
          normalize).isNewSession = true)
  ∧ (∀ (scope : String) (triggers : List String) (idleMinutes now nowSave : Int)
        (ctx : MsgContext) (store : SessionStore) (freshId : String)
        (normalize : String → String),
      scanTriggers triggers (jsTrim (ctx.Body.getD "")) = none →
      storeFind store (deriveSessionKey scope ctx normalize) = none →
      (resolveSession scope triggers idleMinutes ctx store now nowSave freshId
          normalize).sessionId = freshId ∧
        (resolveSession scope triggers idleMinutes ctx store now nowSave freshId
          normalize).isNewSession = true)
  ∧ (∀ (scope : String) (triggers : List String) (idleMinutes now nowSave : Int)
        (ctx : MsgContext) (store : SessionStore) (freshId : String)
        (normalize : String → String) (st : String),
      scanTriggers triggers (jsTrim (ctx.Body.getD "")) = some st →
      (resolveSession scope triggers idleMinutes ctx store now nowSave freshId
          normalize).sessionId = freshId ∧
        (resolveSession scope triggers idleMinutes ctx store now nowSave freshId
          normalize).isNewSession = true) := by
  refine ⟨?_, ?_, ?_, ?_⟩
  · intro scope triggers idleMinutes now nowSave ctx store freshId normalize e
      hscan hfind hle
    constructor <;> simp [resolveSession, hscan, hfind, hle]
  · intro scope triggers idleMinutes now nowSave ctx store freshId normalize e
      hscan hfind hgt
    constructor <;> simp [resolveSession, hscan, hfind, not_le.mpr hgt]
  · intro scope triggers idleMinutes now nowSave ctx store freshId normalize
      hscan hfind
    constructor <;> simp [resolveSession, hscan, hfind]
  · intro scope triggers idleMinutes now nowSave ctx store freshId normalize st
      hscan
    constructor <;> simp [resolveSession, hscan]

/-- Claim C2 witness at concrete inputs: a 60-minute idle window with an
entry updated at 100 is reused at now = 3600100 (exactly the window) and
replaced at now = 3600101. -/
theorem c2_session_freshness_witness :
    ((resolveSession "per-sender" ["/new"] 60
        { Body := some "hi", From := some "+1555" }
        [("+1555", { sessionId := "old", updatedAt := 100 })] 3600100 0 "u"
        id).sessionId = "old")
  ∧ ((resolveSession "per-sender" ["/new"] 60
        { Body := some "hi", From := some "+1555" }
        [("+1555", { sessionId := "old", updatedAt := 100 })] 3600101 0 "u"
        id).sessionId = "u") :=
  ⟨(c2_session_freshness.1 "per-sender" ["/new"] 60 3600100 0
      { Body := some "hi", From := some "+1555" }
      [("+1555", { sessionId := "old", updatedAt := 100 })] "u" id
      { sessionId := "old", updatedAt := 100 } (by decide) (by decide)
      (by decide)).1,
   (c2_session_freshness.2.1 "per-sender" ["/new"] 60 3600101 0
      { Body := some "hi", From := some "+1555" }
      [("+1555", { sessionId := "old", updatedAt := 100 })] "u" id
      { sessionId := "old", updatedAt := 100 } (by decide) (by decide)
      (by decide)).1⟩

/-- Claim C3 (reset triggers): resetTriggers are scanned in order; a
trimmed body equal to a non-empty trigger yields a reset with empty
stripped body; a body of trigger, space, remainder yields a reset with the
trimStart of the remainder; a non-matching non-empty trigger defers to the
rest of the list (and an empty trigger is skipped); concretely, with
resetTriggers a single "/new", body "/new hello" yields isNewSession true
and bodyStripped "hello", and body "/new" yields bodyStripped "". -/
theorem c3_reset_triggers :
    (∀ (t : String) (rest : List String), t ≠ "" →
      scanTriggers (t :: rest) t = some "")
  ∧ (∀ (t : String) (rest : List String) (r : List Char), t ≠ "" →
      scanTriggers (t :: rest) ⟨t.toList ++ ' ' :: r⟩ =
        some ⟨r.dropWhile isJsWs⟩)
  ∧ (∀ (t : String) (rest : List String) (b : String), t ≠ "" → b ≠ t →
      (t.toList ++ [' ']).isPrefixOf b.toList = false →
      scanTriggers (t :: rest) b = scanTriggers rest b)
  ∧ (∀ (rest : List String) (b : String),
      scanTriggers ("" :: rest) b = scanTriggers rest b)
  ∧ ((resolveSession "per-sender" ["/new"] 60 { Body := some "/new hello" }
        [] 0 0 "u" id).isNewSession = true
      ∧ (resolveSession "per-sender" ["/new"] 60 { Body := some "/new hello" }
          [] 0 0 "u" id).bodyStripped = some "hello")
  ∧ ((resolveSession "per-sender" ["/new"] 60 { Body := some "/new" }
        [] 0 0 "u" id).isNewSession = true
      ∧ (resolveSession "per-sender" ["/new"] 60 { Body := some "/new" }
          [] 0 0 "u" id).bodyStripped = some "") := by
  refine ⟨?_, ?_, ?_, ?_, by decide, by decide⟩
  · intro t rest ht
    simp [scanTriggers, ht]
  · intro t rest r ht
    have hne : (⟨t.toList ++ ' ' :: r⟩ : String) ≠ t := by
      intro h
      have : t.toList ++ ' ' :: r = t.toList := congrArg String.toList h
      simp at this
    have hpre : (t.toList ++ [' ']).isPrefixOf
        ((⟨t.toList ++ ' ' :: r⟩ : String).toList) = true := by
      show (t.toList ++ [' ']).isPrefixOf (t.toList ++ ' ' :: r) = true
      rw [List.isPrefixOf_iff_prefix]
      have h2 : t.toList ++ ' ' :: r = (t.toList ++ [' ']) ++ r := by simp
      rw [h2]
      exact List.prefix_append _ _
    have hdrop : ((⟨t.toList ++ ' ' :: r⟩ : String).toList).drop t.length =
        ' ' :: r := by
      show (t.toList ++ ' ' :: r).drop t.length = ' ' :: r
      have hl : t.length = t.toList.length := rfl
      rw [hl, List.drop_left]
    simp only [scanTriggers, ht, if_neg hne, hpre, if_true]
    rw [hdrop]
    simp [jsTrimStart, List.dropWhile, isJsWs]
  · intro t rest b ht hne hpre
    have hp2 : ¬(t.toList ++ [' '] <+: b.toList) := by
      rw [← List.isPrefixOf_iff_prefix, hpre]
      simp
    simp only [scanTriggers, List.isPrefixOf_iff_prefix]
    rw [if_neg ht, if_neg hne, if_neg hp2]
  · intro rest b
    simp [scanTriggers]

/-- Claim C3 witness: the order-deferral clause applied concretely — body
"hi" matches neither the exact form nor the space-suffixed form of
trigger "/stop", so the scan moves to the next trigger. -/
theorem c3_reset_triggers_witness :
    scanTriggers ["/stop", "/new"] "hi" = scanTriggers ["/new"] "hi" :=
  c3_reset_triggers.2.2.1 "/stop" ["/new"] "hi" (by decide) (by decide)
    (by decide)

/-- Claim C4 (template engine): each double-brace placeholder with optional
surrounding whitespace is replaced by the context value, an unknown or
null key renders as the empty string, the replacement is a single
non-recursive pass (a substituted value containing placeholder syntax is
not rescanned), malformed placeholders and other text stay literal, and
text without an opening brace is returned unchanged; the function is total
so no error is possible.  In particular rendering the two-placeholder
template over the single-key context gives "x ". -/
theorem c4_template_engine :
    renderTemplate (fun k => if k = "A" then some "x" else none)
      "\x7b\x7bA\x7d\x7d \x7b\x7bB\x7d\x7d" = "x "
  ∧ renderTemplate (fun k => if k = "A" then some "\x7b\x7bB\x7d\x7d" else some "y")
      "\x7b\x7bA\x7d\x7d" = "\x7b\x7bB\x7d\x7d"
  ∧ renderTemplate (fun _ => none) "\x7b\x7b A \x7d\x7d" = ""
  ∧ renderTemplate (fun _ => some "v") "\x7b\x7bA B\x7d\x7d" = "\x7b\x7bA B\x7d\x7d"
  ∧ (∀ (lookup : String → Option String) (s : String),
      (∀ c ∈ s.toList, c ≠ '\x7b') → renderTemplate lookup s = s) := by
  refine ⟨by decide, by decide, by decide, by decide, ?_⟩
  intro lookup s hnb
  show (⟨templateGo _ s.toList.length s.toList⟩ : String) = s
  rw [templateGo_no_brace _ s.toList s.toList.length (le_refl _) hnb]
  rfl

/-- Claim C4 witness: the literal-text clause applied at a concrete
brace-free template. -/
theorem c4_template_engine_witness :
    renderTemplate (fun _ => some "v") "plain text" = "plain text" :=
  c4_template_engine.2.2.2.2 (fun _ => some "v") "plain text" (by decide)

/-- Claim C5 (command-mode failure handling): a non-zero exit code yields
no reply; a command that only sleeps past the timeout produces the
SIGKILL-killed result with killed true and empty output, and both the
result handler and the full resolver convert it to no reply; on success
the reply is the stdout trimmed of surrounding whitespace, with an
empty-after-trim stdout also yielding no reply. -/
theorem c5_command_failure_handling :
    (∀ (r : SpawnResult) (c : Int), r.code = some c → c ≠ 0 →
      commandReplyOf r = none)
  ∧ (sleepTimeoutResult.killed = true ∧ commandReplyOf sleepTimeoutResult = none)
  ∧ (∀ r : SpawnResult, r.code = some 0 → ¬(r.killed ∧ r.signal.getD "" = "") →
      commandReplyOf r =
        if jsTrim r.stdout = "" then none else some (jsTrim r.stdout))
  ∧ getReplyFromConfig cmdCfg { Body := some "hi" }
      { runner := .ok sleepTimeoutResult } [] 0 0 "u" id
    = .ok { reply := none, started := true,
            ranCommand := some (["mycmd"], 600000) } := by
  refine ⟨?_, by decide, ?_, by decide⟩
  · intro r c hc hnz
    simp [commandReplyOf, hc, hnz]
  · intro r hc hks
    simp [commandReplyOf, hc, hks]

/-- Claim C5 witness: the non-zero-exit and success clauses applied at
concrete results. -/
theorem c5_command_failure_handling_witness :
    commandReplyOf { stdout := "oops", code := some 2 } = none
  ∧ commandReplyOf { stdout := " out \n", code := some 0 } = some "out" :=
  ⟨c5_command_failure_handling.1 { stdout := "oops", code := some 2 } 2
      (by decide) (by decide),
   by
    have h := c5_command_failure_handling.2.2.1
      { stdout := " out \n", code := some 0 } (by decide) (by decide)
    simpa using h⟩

/-- Claim C10 (clamped limits): the effective command timeout is
max(timeoutSeconds, 1) seconds with default 600, the effective idle window
is max(idleMinutes, 1) minutes with default 60, so a zero or negative
configured value never disables either limit; and whenever the resolver
invokes the command runner it passes exactly 1000 times the effective
timeout seconds. -/
theorem c10_clamped_limits :
    (∀ v, 1 ≤ effTimeoutSeconds v) ∧ effTimeoutSeconds none = 600
  ∧ (∀ z, z ≤ 0 → effTimeoutSeconds (some z) = 1)
  ∧ (∀ v, 1 ≤ effIdleMinutes v) ∧ effIdleMinutes none = 60
  ∧ (∀ z, z ≤ 0 → effIdleMinutes (some z) = 1)
  ∧ (∀ (cfg : WarelayConfig) (ctx : MsgContext) (eff : ResolveEffects)
        (store : SessionStore) (now nowSave : Int) (freshId : String)
        (normalize : String → String) (log : ResolveLog)
        (argv : List String) (tms : Int),
      getReplyFromConfig cfg ctx eff store now nowSave freshId normalize = .ok log →
      log.ranCommand = some (argv, tms) →
      tms = effTimeoutSeconds
        ((cfg.inbound.bind (·.reply)).bind (·.timeoutSeconds)) * 1000) := by
  refine ⟨?_, by decide, ?_, ?_, by decide, ?_, ?_⟩
  · intro v; exact le_max_right _ _
  · intro z hz
    simp only [effTimeoutSeconds, Option.getD_some]
    omega
  · intro v; exact le_max_right _ _
  · intro z hz
    simp only [effIdleMinutes, Option.getD_some]
    omega
  · intro cfg ctx eff store now nowSave freshId normalize log argv tms hok hran
    unfold getReplyFromConfig at hok
    split at hok
    · cases hok
    · split at hok
      · cases hok
        simp at hran
      · exact runReplyModes_timeout _ _ _ _ _ _ _ _ _ hok hran

/-- Claim C7 (poll ordering and dedup): within every fetched batch the
dispatched messages are in non-decreasing createdAt order; a message whose
id is already in the dedup window is never dispatched; and a message
dispatched in one iteration is never dispatched again by a later iteration
whose overlapping fetch returns it again, because its id has entered the
seen set. -/
theorem c7_poll_order_dedup :
    (∀ (since : Int) (seen : List String) (msgs : List PollMsg),
      ((monitorTwilioStep since seen msgs).2.2).Pairwise msgLe)
  ∧ (∀ (since : Int) (seen : List String) (msgs : List PollMsg) (m : PollMsg),
      m ∈ (monitorTwilioStep since seen msgs).2.2 → m.sid ∉ seen)
  ∧ (∀ (since : Int) (seen : List String) (msgs1 msgs2 : List PollMsg)
        (m1 m2 : PollMsg),
      m1 ∈ (monitorTwilioStep since seen msgs1).2.2 →
      m2 ∈ (monitorTwilioStep (monitorTwilioStep since seen msgs1).1
              (monitorTwilioStep since seen msgs1).2.1 msgs2).2.2 →
      m2.sid ≠ m1.sid) := by
  refine ⟨?_, ?_, ?_⟩
  · intro since seen msgs
    exact (List.sorted_insertionSort msgLe _).sublist
      (processBatch_sublist _ _ _)
  · intro since seen msgs m hm
    exact processBatch_not_seen _ _ _ _ hm
  · intro since seen msgs1 msgs2 m1 m2 h1 h2
    have hseen : m1.sid ∈ (monitorTwilioStep since seen msgs1).2.1 :=
      processBatch_dispatched_seen _ _ _ _ h1
    have hnot : m2.sid ∉ (monitorTwilioStep since seen msgs1).2.1 :=
      processBatch_not_seen _ _ _ _ h2
    intro he
    exact hnot (he ▸ hseen)

/-- Claim C7 witness: a concrete two-iteration run — the first batch is
dispatched in creation order with the pre-seen id skipped, and the second
batch, which returns an already-dispatched message again, does not
dispatch it a second time. -/
theorem c7_poll_order_dedup_witness :
    ((monitorTwilioStep 0 ["sid0"]
        [{ sid := "sid2", direction := "inbound", dateCreated := some 20 },
         { sid := "sid0", direction := "inbound", dateCreated := some 5 },
         { sid := "sid1", direction := "inbound", dateCreated := some 10 }]).2.2).Pairwise
      msgLe
  ∧ ({ sid := "sid1", direction := "inbound", dateCreated := some 10 } : PollMsg).sid
      ∉ ["sid0"] :=
  ⟨c7_poll_order_dedup.1 0 ["sid0"]
      [{ sid := "sid2", direction := "inbound", dateCreated := some 20 },
       { sid := "sid0", direction := "inbound", dateCreated := some 5 },
       { sid := "sid1", direction := "inbound", dateCreated := some 10 }],
   c7_poll_order_dedup.2.1 0 ["sid0"]
      [{ sid := "sid2", direction := "inbound", dateCreated := some 20 },
       { sid := "sid0", direction := "inbound", dateCreated := some 5 },
       { sid := "sid1", direction := "inbound", dateCreated := some 10 }]
      { sid := "sid1", direction := "inbound", dateCreated := some 10 }
      (by decide)⟩

/-- Claim C9, counterexample: a single poll batch dispatches two messages
through the embedded dedup loop, and under the fire-and-forget dispatch of
line 1602 both reply tasks start at the batch's dispatch tick, so with
positive durations (5 and 5) the second task starts strictly before the
first ends — the claimed invariant (start of task N+1 at least end of task
N, at most one command at a time) fails: the staged source serializes
reply generation through no queue. -/
theorem c9_queue_counterexample :
    ((monitorTwilioStep 0 []
        [{ sid := "sidA", direction := "inbound", dateCreated := some 1 },
         { sid := "sidB", direction := "inbound", dateCreated := some 2 }]).2.2).length = 2
  ∧ ((pollDispatchSchedule 0 [5, 5]).getD 1 (0, 0)).1 <
      ((pollDispatchSchedule 0 [5, 5]).getD 0 (0, 0)).2 := by
  constructor
  · decide
  · decide

/-- Claim C9 as amended: in the staged source reply-generation work is NOT
serialized through any queue — the poll ingestor dispatches each
deduplicated message fire-and-forget (void, line 1602), so every reply
task of a batch starts at the batch's dispatch tick (never delayed until
a predecessor ends), and any later task starts strictly before any
earlier positive-duration task ends, i.e. their execution intervals
overlap; the process-wide FIFO queue the spec describes exists only in
refactored modules outside src/. -/
theorem c9_no_serialization :
    (∀ (t0 : Int) (ds : List Int) (i : Nat), i < ds.length →
      ((pollDispatchSchedule t0 ds).getD i (0, 0)).1 = t0)
  ∧ (∀ (t0 : Int) (ds : List Int) (i j : Nat), i < j → j < ds.length →
      0 < ds.getD i 0 →
      ((pollDispatchSchedule t0 ds).getD j (0, 0)).1 <
        ((pollDispatchSchedule t0 ds).getD i (0, 0)).2) := by
  constructor
  · intro t0 ds i hi
    exact pollDispatchSchedule_start ds t0 i hi
  · intro t0 ds i j hij hj hd
    have hi : i < ds.length := lt_trans hij hj
    rw [pollDispatchSchedule_start ds t0 j hj,
      pollDispatchSchedule_end ds t0 i hi]
    linarith

/-- Claim C9 witness: the amended theorem at a concrete batch dispatched
at tick 7 with two tasks of duration 5 — both start at 7, and the second
starts before the first ends. -/
theorem c9_no_serialization_witness :
    ((pollDispatchSchedule 7 [5, 5]).getD 0 (0, 0)).1 = 7
  ∧ ((pollDispatchSchedule 7 [5, 5]).getD 1 (0, 0)).1 <
      ((pollDispatchSchedule 7 [5, 5]).getD 0 (0, 0)).2 :=
  ⟨c9_no_serialization.1 7 [5, 5] 0 (by decide),
   c9_no_serialization.2 7 [5, 5] 0 1 (by decide) (by decide) (by decide)⟩

theorem runReplyModes_runner_error :
    ∀ (r : ReplyConfig) (tctx : TemplateContext) (isNew : Bool) (tms : Int)
      (eff : ResolveEffects) (sw : Option (String × SessionEntry)) (msg : String),
      r.mode = some "command" → 0 < (r.command.getD []).length →
      eff.onReplyStart = .ok () → eff.runner = .error msg →
      runReplyModes (some r) tctx isNew tms eff sw =
        .ok { reply := none, storeWrite := sw, started := true,
              ranCommand := some (buildCommandArgv r tctx isNew, tms) } := by
  intro r tctx isNew tms eff sw msg hmode hlen heff hrun
  simp [runReplyModes, hmode, hlen, heff, hrun]

/-- Claim C1, counterexample: sessions and a non-empty allow-list are
configured and the sender +1555 is absent from it; resolution does return
none, but the Session Store is written for this message (the freshly
minted entry appears in the log), because the session block precedes the
allow-list check in the code — contradicting the claim that the store is
neither consulted nor written. -/
theorem c1_allowlist_counterexample :
    getReplyFromConfig (textCfg (some ["+1999"]))
      { Body := some "hi", From := some "+1555" } {} [] 5 7 "fresh-1" id
    = .ok { reply := none,
            storeWrite := some ("+1555", { sessionId := "fresh-1", updatedAt := 7 }) } := by
  decide

/-- Claim C1 as amended: when the sender is rejected by a configured
non-empty allow-list (allowDenied) and the session save succeeds,
resolution returns none with no reply started and no command run — but
the session block has already executed, so with sessions configured the
Session Store has been consulted and the fresh entry written. -/
theorem c1_allowlist_denied :
    ∀ (cfg : WarelayConfig) (ctx : MsgContext) (eff : ResolveEffects)
      (store : SessionStore) (now nowSave : Int) (freshId : String)
      (normalize : String → String),
      allowDenied (cfg.inbound.bind (·.allowFrom))
        (stripWhatsApp (ctx.From.getD "")) = true →
      eff.saveStore = .ok () →
      getReplyFromConfig cfg ctx eff store now nowSave freshId normalize
        = .ok { reply := none,
                storeWrite := storeWriteOf cfg ctx store now nowSave freshId normalize } ∧
      ((sessionCfgOf cfg).isSome →
        (storeWriteOf cfg ctx store now nowSave freshId normalize).isSome) := by
  intro cfg ctx eff store now nowSave freshId normalize hden hsave
  constructor
  · cases hsc : sessionCfgOf cfg with
    | none => simp [getReplyFromConfig, hsc, hden]
    | some sc => simp [getReplyFromConfig, hsc, hsave, hden]
  · intro hsome
    cases hsc : sessionCfgOf cfg with
    | none => rw [hsc] at hsome; simp at hsome
    | some sc => simp [storeWriteOf, sessionOutOf, hsc]

/-- Claim C1 witness: the amended theorem applied at the counterexample
configuration — sender +1555, allow-list containing only +1999, sessions
configured. -/
theorem c1_allowlist_denied_witness :
    getReplyFromConfig (textCfg (some ["+1999"]))
      { Body := some "hi", From := some "+1555" } {} [] 5 7 "fresh-1" id
      = .ok { reply := none,
              storeWrite := storeWriteOf (textCfg (some ["+1999"]))
                { Body := some "hi", From := some "+1555" } [] 5 7 "fresh-1" id } ∧
    ((sessionCfgOf (textCfg (some ["+1999"]))).isSome →
      (storeWriteOf (textCfg (some ["+1999"]))
        { Body := some "hi", From := some "+1555" } [] 5 7 "fresh-1" id).isSome) :=
  c1_allowlist_denied (textCfg (some ["+1999"]))
    { Body := some "hi", From := some "+1555" } {} [] 5 7 "fresh-1" id
    (by decide) (by decide)

/-- Claim C6, counterexample: with sessions configured, a saveSessionStore
write that throws (modelled as the error outcome) propagates out of
getReplyFromConfig instead of being caught — resolution does raise to its
caller, contradicting the claim. -/
theorem c6_resolution_throws_counterexample :
    getReplyFromConfig (textCfg none) { Body := some "hi" }
      { saveStore := .error "disk full" } [] 0 0 "u" id
    = .error "disk full" := by decide

/-- Claim C6 as amended: the try block around the command run does catch a
thrown command and converts it to none (no reply), but the catch covers
only the run — an exception thrown by the session-store persistence (the
save at line 658, before the try) propagates to the caller. -/
theorem c6_exception_scope :
    (∀ (cfg : WarelayConfig) (ctx : MsgContext) (eff : ResolveEffects)
        (store : SessionStore) (now nowSave : Int) (freshId : String)
        (normalize : String → String) (r : ReplyConfig) (msg : String),
      replyOf cfg = some r → r.mode = some "command" →
      0 < (r.command.getD []).length → eff.saveStore = .ok () →
      eff.onReplyStart = .ok () → eff.runner = .error msg →
      allowDenied (cfg.inbound.bind (·.allowFrom))
        (stripWhatsApp (ctx.From.getD "")) = false →
      ∃ log, getReplyFromConfig cfg ctx eff store now nowSave freshId normalize
          = .ok log ∧ log.reply = none)
  ∧ (∀ (cfg : WarelayConfig) (ctx : MsgContext) (eff : ResolveEffects)
        (store : SessionStore) (now nowSave : Int) (freshId : String)
        (normalize : String → String) (e : String) (sc : SessionConfig),
      sessionCfgOf cfg = some sc → eff.saveStore = .error e →
      getReplyFromConfig cfg ctx eff store now nowSave freshId normalize
        = .error e) := by
  constructor
  · intro cfg ctx eff store now nowSave freshId normalize r msg hr hmode hlen
      hsave heff hrun hden
    have hmain := runReplyModes_runner_error r
      (buildTemplatingCtx (replyOf cfg) ctx
        (sessionOutOf cfg ctx store now nowSave freshId normalize))
      (isNewOf cfg ctx store now nowSave freshId normalize)
      (timeoutMsOf cfg) eff
      (storeWriteOf cfg ctx store now nowSave freshId normalize)
      msg hmode hlen heff hrun
    have hfull : getReplyFromConfig cfg ctx eff store now nowSave freshId
        normalize = .ok
          { reply := none,
            storeWrite := storeWriteOf cfg ctx store now nowSave freshId normalize,
            started := true,
            ranCommand := some
              (buildCommandArgv r
                (buildTemplatingCtx (replyOf cfg) ctx
                  (sessionOutOf cfg ctx store now nowSave freshId normalize))
                (isNewOf cfg ctx store now nowSave freshId normalize),
               timeoutMsOf cfg) } := by
      cases hsc : sessionCfgOf cfg with
      | none =>
        simp only [getReplyFromConfig, hsc, hden, Bool.false_eq_true, if_false]
        rw [hr] at hmain ⊢
        exact hmain
      | some sc =>
        simp only [getReplyFromConfig, hsc, hsave, hden, Bool.false_eq_true,
          if_false]
        rw [hr] at hmain ⊢
        exact hmain
    exact ⟨_, hfull, rfl⟩
  · intro cfg ctx eff store now nowSave freshId normalize e sc hsc hsave
    simp [getReplyFromConfig, hsc, hsave]

/-- Claim C6 witness: the amended theorem's two clauses at concrete
inputs — a thrown command run is absorbed into a none reply, and a thrown
session save surfaces as the error. -/
theorem c6_exception_scope_witness :
    (∃ log, getReplyFromConfig cmdCfg { Body := some "hi" }
        { runner := .error "spawn failed" } [] 0 0 "u" id = .ok log ∧
        log.reply = none)
  ∧ getReplyFromConfig (textCfg none) { Body := some "hello" }
      { saveStore := .error "mkdir failed" } [] 0 0 "u" id
    = .error "mkdir failed" :=
  ⟨c6_exception_scope.1 cmdCfg { Body := some "hi" }
      { runner := .error "spawn failed" } [] 0 0 "u" id
      { mode := some "command", command := some ["mycmd"] } "spawn failed"
      (by decide) (by decide) (by decide) (by decide) (by decide) (by decide)
      (by decide),
   c6_exception_scope.2 (textCfg none) { Body := some "hello" }
      { saveStore := .error "mkdir failed" } [] 0 0 "u" id "mkdir failed" {}
      (by decide) (by decide)⟩

/-- The environment of the C8 counterexample: the first strategy's write
succeeds and its read-back returns a stored callback URL different from
the intended one. -/
def c8env : WebhookEnv :=
  { jsonFetch := .ok (some { callbackUrl := some "https://wrong.example/cb" }) }

/-- Claim C8, counterexample: the intended URL is
https://right.example/cb, strategy 1's write succeeds, and its read-back
returns the different URL https://wrong.example/cb — yet updateWebhook
reports success via strategy 1 and never attempts strategy 2, because the
code only tests the read-back for truthiness, not for equality with the
intended URL.  This contradicts the claim that a mismatching read-back
causes strategy 2 to be attempted. -/
theorem c8_webhook_counterexample :
    updateWebhook c8env "https://right.example/cb"
      = .viaJson "https://wrong.example/cb"
  ∧ "https://wrong.example/cb" ≠ "https://right.example/cb" := by
  constructor
  · decide
  · decide

/-- Claim C8 as amended: the strategies run in a fixed order and the
sequence stops at the first that reports success, but the read-back of the
first two strategies only checks that some truthy callback URL is stored
(not that it equals the intended URL), the helper strategy succeeds with
no verification of the fetched value at all, and only when every strategy
fails does bring-up fail fatally. -/
theorem c8_webhook_chain :
    (∀ (env : WebhookEnv) (url : String) (w : Option SenderWebhookInfo)
        (u : String),
      env.jsonWrite = .ok () → env.jsonFetch = .ok w → storedUrlOf w = some u →
      updateWebhook env url = .viaJson u)
  ∧ (∀ (env : WebhookEnv) (url : String) (w : Option SenderWebhookInfo),
      env.jsonFetch = .ok none → env.formFetch = .ok none →
      env.helperAvailable = true → env.helperUpdate = .ok () →
      env.helperFetch = .ok w →
      updateWebhook env url = .viaHelper ((storedUrlOf w).getD url))
  ∧ (∀ (env : WebhookEnv) (url : String),
      env.jsonFetch = .ok none → env.formFetch = .ok none →
      env.helperAvailable = false → env.phoneSidLookup = none →
      env.serviceUpdate = false →
      updateWebhook env url = .fatal) := by
  refine ⟨?_, ?_, ?_⟩
  · intro env url w u hw hf hs
    simp [updateWebhook, hw, hf, hs]
  · intro env url w hjf hff hh hhu hhf
    cases hjw : env.jsonWrite with
    | error e =>
      cases hfw : env.formWrite with
      | error e2 => simp [updateWebhook, hjw, hfw, hh, hhu, hhf]
      | ok u2 => simp [updateWebhook, hjw, hfw, hff, storedUrlOf, hh, hhu, hhf]
    | ok u1 =>
      cases hfw : env.formWrite with
      | error e2 => simp [updateWebhook, hjw, hjf, storedUrlOf, hfw, hh, hhu, hhf]
      | ok u2 =>
        simp [updateWebhook, hjw, hjf, hfw, hff, storedUrlOf, hh, hhu, hhf]
  · intro env url hjf hff hh hph hsv
    cases hjw : env.jsonWrite with
    | error e =>
      cases hfw : env.formWrite with
      | error e2 => simp [updateWebhook, hjw, hfw, hh, hph, hsv]
      | ok u2 => simp [updateWebhook, hjw, hfw, hff, storedUrlOf, hh, hph, hsv]
    | ok u1 =>
      cases hfw : env.formWrite with
      | error e2 => simp [updateWebhook, hjw, hjf, storedUrlOf, hfw, hh, hph, hsv]
      | ok u2 =>
        simp [updateWebhook, hjw, hjf, hfw, hff, storedUrlOf, hh, hph, hsv]

/-- Claim C8 witness: the amended chain at concrete environments — a
truthy stored URL stops the sequence at strategy 1, and with every
strategy failing the outcome is fatal. -/
theorem c8_webhook_chain_witness :
    updateWebhook c8env "https://right.example/cb"
      = .viaJson "https://wrong.example/cb"
  ∧ updateWebhook
      { helperAvailable := false, serviceUpdate := false } "https://u.example"
      = .fatal :=
  ⟨c8_webhook_chain.1 c8env "https://right.example/cb"
      (some { callbackUrl := some "https://wrong.example/cb" })
      "https://wrong.example/cb" (by decide) (by decide) (by decide),
   c8_webhook_chain.2.2 { helperAvailable := false, serviceUpdate := false }
      "https://u.example" (by decide) (by decide) (by decide) (by decide)
      (by decide)⟩

/-- Claim C10 witness: the clamp clauses at concrete values — a negative
configured timeout and a zero idle window both clamp to one unit. -/
theorem c10_clamped_limits_witness :
    effTimeoutSeconds (some (-5)) = 1 ∧ effIdleMinutes (some 0) = 1 :=
  ⟨c10_clamped_limits.2.2.1 (-5) (by decide),
   c10_clamped_limits.2.2.2.2.2.1 0 (by decide)⟩
